import Mathlib

/-!
Shallow embedding of the repugnant-pickle crate's core pipeline
(src/ops.rs, src/value.rs, src/eval.rs, src/parsers.rs): the decoded
opcode type, the value model with its fix-up pass, the stack-machine
evaluator with its memo table and bounded reference resolution, and the
one-opcode byte decoder. Definitions mirror the Rust source; machine
integers are modelled as Nat/Int, byte slices as List Nat, and the f64
payload of BINFLOAT as its 64-bit pattern (no claim touches float
arithmetic). Theorems settle the frozen claims about this code.
-/

namespace RepugnantPickle

/-- src/value.rs `SequenceType`: the kinds of sequences that exist. -/
inductive SequenceType
  | List
  | Dict
  | Tuple
  | Set
  | FrozenSet
deriving DecidableEq

/-- src/ops.rs `PickleOp<'a>`: a decoded pickle operation. Borrowed
`&'a str` payloads become `String`, `&'a [u8]` become `List Nat`
(bytes), fixed-width machine ints become `Nat`/`Int`, and the `f64` of
BINFLOAT is kept as its 64-bit little-endian bit pattern. -/
inductive PickleOp
  | MARK
  | STOP
  | POP
  | POP_MARK
  | DUP
  | FLOAT (s : String)
  | INT (s : String)
  | BININT (n : Int)
  | BININT1 (n : Nat)
  | LONG (s : String)
  | BININT2 (n : Nat)
  | NONE
  | PERSID (s : String)
  | BINPERSID
  | REDUCE
  | STRING (s : String)
  | BINSTRING (b : List Nat)
  | SHORT_BINSTRING (b : List Nat)
  | UNICODE (s : String)
  | BINUNICODE (s : String)
  | APPEND
  | BUILD
  | GLOBAL (mn gn : String)
  | DICT
  | EMPTY_DICT
  | APPENDS
  | GET (s : String)
  | BINGET (n : Nat)
  | INST (mn cn : String)
  | LONG_BINGET (n : Nat)
  | LIST
  | EMPTY_LIST
  | OBJ
  | PUT (s : String)
  | BINPUT (n : Nat)
  | LONG_BINPUT (n : Nat)
  | SETITEM
  | TUPLE
  | EMPTY_TUPLE
  | SETITEMS
  | BINFLOAT (bits : Nat)
  | PROTO (n : Nat)
  | NEWOBJ
  | EXT1 (n : Nat)
  | EXT2 (n : Int)
  | EXT4 (n : Int)
  | TUPLE1
  | TUPLE2
  | TUPLE3
  | NEWTRUE
  | NEWFALSE
  | LONG1 (b : List Nat)
  | LONG4 (b : List Nat)
  | BINBYTES (b : List Nat)
  | SHORT_BINBYTES (b : List Nat)
  | SHORT_BINUNICODE (s : String)
  | BINUNICODE8 (s : String)
  | BINBYTES8 (b : List Nat)
  | EMPTY_SET
  | ADDITEMS
  | FROZENSET
  | NEWOBJ_EX
  | STACK_GLOBAL
  | MEMOIZE
  | FRAME (n : Nat)
  | BYTEARRAY8 (b : List Nat)
  | NEXT_BUFFER
  | READONLY_BUFFER

/-- src/value.rs `Value<'a>`: a processed value. `Cow<'a, PickleOp>` is
modelled as a plain `PickleOp`; `i64` and `BigInt` both become Lean's
unbounded `Int` (the `Int`/`BigInt` split is the range check performed
by `fix_value`); `f64` is its bit pattern. -/
inductive Value
  | Raw (op : PickleOp)
  | Ref (mid : Nat)
  | App (apped : Value) (apps : List Value)
  | Object (apped : Value) (apps : List Value)
  | Build (apped : Value) (apps : Value)
  | PersId (pid : Value)
  | Global (target : Value) (args : List Value)
  | Seq (st : SequenceType) (items : List Value)
  | String (s : String)
  | Bytes (b : List Nat)
  | Int (n : Int)
  | BigInt (n : Int)
  | Float (bits : Nat)
  | RawNum (op : PickleOp)
  | Bool (b : Bool)
  | None

/-- src/eval.rs `MAX_DEPTH`. -/
def MAX_DEPTH : Nat := 250

/-- src/eval.rs `MAX_PROTOCOL`. -/
def MAX_PROTOCOL : Nat := 5

/-- src/eval.rs error outcomes. The crate uses `anyhow` errors for the
`bail!`/`ensure!`/`ok_or_else` paths; a Rust `panic`/`expect` failure is
a distinct, non-`Result` outcome, so the embedding keeps the two apart. -/
inductive EvalErr
  | err (msg : String)
  | panicked (msg : String)
deriving DecidableEq

/-- src/eval.rs `PickleMemo<'a>`: a `BTreeMap<u32, Value>`, modelled as
a duplicate-free association list (insert overwrites in place, lookup by
key, `len` is the number of entries; iteration order is never used). -/
abbrev Memo := List (Nat × Value)

/-- Lookup, `BTreeMap::get`. -/
def memoFind (m : Memo) (mid : Nat) : Option Value :=
  match m with
  | [] => Option.none
  | (k, v) :: rest => if mid = k then some v else memoFind rest mid

/-- Insertion, `BTreeMap::insert` (overwrites an existing key, keeps one entry per
key so that `List.length` models `BTreeMap::len`). -/
def memoInsert (m : Memo) (mid : Nat) (val : Value) : Memo :=
  match m with
  | [] => [(mid, val)]
  | (k, v) :: rest =>
    if mid = k then (mid, val) :: rest else (k, v) :: memoInsert rest mid val

/-- src/eval.rs `PickleMemo::resolve`, loop body. `fuel` is
`MAX_DEPTH - 1 - count` of the source: the Rust loop performs one memo
lookup per iteration and, when `recursive`, breaks after the
`MAX_DEPTH`-th lookup, returning the value it had just fetched (even if
it is still a `Ref`). A missing memo id is an error. -/
def resolveGo (m : Memo) (recursive : Bool) : Nat → Value → Except EvalErr Value
  | fuel, Value.Ref mid =>
    (match memoFind m mid with
     | Option.none => Except.error (EvalErr.err "Bad memo id")
     | some val =>
       if !recursive then Except.ok val
       else
         match fuel with
         | 0 => Except.ok val
         | fuel' + 1 => resolveGo m recursive fuel' val)
  | _, op => Except.ok op

/-- src/eval.rs `PickleMemo::resolve`. -/
def resolve (m : Memo) (op : Value) (recursive : Bool) : Except EvalErr Value :=
  resolveGo m recursive (MAX_DEPTH - 1) op

/-- Number of memo lookups `resolve`'s loop performs (a failed lookup
counts as the one lookup that reported the missing id). -/
def resolveSteps (m : Memo) (recursive : Bool) : Nat → Value → Nat
  | fuel, Value.Ref mid =>
    (match memoFind m mid with
     | Option.none => 1
     | some val =>
       if !recursive then 1
       else
         match fuel with
         | 0 => 1
         | fuel' + 1 => 1 + resolveSteps m recursive fuel' val)
  | _, _ => 0

/-- Does this value, when it is a `Ref`, point at a present memo id?
Non-`Ref` values trivially qualify. -/
def refTargetOk (m : Memo) (v : Value) : Bool :=
  match v with
  | Value.Ref mid => (memoFind m mid).isSome
  | _ => true

/-- src/eval.rs `PickleMemo::resolve_mut`, loop: starting from memo id
`lastmid`, follow `Ref` chains through the memo and return the id of
the slot holding the mutation target. Mirrors the source exactly: when
the loop breaks after updating `lastmid` (non-recursive mode or the
depth bound), the final id is *unverified*, which is why the caller's
`get_mut(..).expect(..)` can panic. `fuel` is `MAX_DEPTH - 1 - count`. -/
def resolveMutGo (m : Memo) (recursive : Bool) : Nat → Nat → Except EvalErr Nat
  | fuel, lastmid =>
    match memoFind m lastmid with
    | Option.none => Except.error (EvalErr.err "Bad memo id")
    | some (Value.Ref mid) =>
      if !recursive then Except.ok mid
      else
        match fuel with
        | 0 => Except.ok mid
        | fuel' + 1 => resolveMutGo m recursive fuel' mid

    | some _ => Except.ok lastmid

/-- src/eval.rs `PickleStack`: a `Vec<Value>`; modelled head-first, so
the list head is the top of the stack (the end of the Rust `Vec`). -/
abbrev PickleStack := List Value

/-- The `matches!(op, Value::Raw(Cow::Borrowed(&PickleOp::MARK)))` test
used by `PickleStack::find_mark`. -/
def isMarkVal : Value → Bool
  | Value.Raw PickleOp.MARK => true
  | _ => false

/-- src/eval.rs `PickleStack::pop_mark` / `find_mark`, combined: scan
from the top of the stack for the most recent `MARK`, returning the
elements above it (top-first, i.e. reversed push order) and the stack
below the mark. `Option.none` models the "Missing MARK" error. -/
def splitAtMark : PickleStack → Option (List Value × PickleStack)
  | [] => Option.none
  | v :: rest =>
    if isMarkVal v then some ([], rest)
    else (splitAtMark rest).map (fun p => (v :: p.1, p.2))

/-- src/eval.rs `evaluate`'s inner `make_kvlist` pairing loop: group a
flat `[k1, v1, k2, v2, ...]` into `Seq(Tuple, [k, v])` pairs. The
source's `it.next().expect(..)` on a dangling key is unreachable under
the evenness guard of `make_kvlist`; the dangling-key case here drops
the key and is likewise unreachable. -/
def pairKv : List Value → List Value
  | [] => []
  | [_] => []
  | k :: v :: rest => Value.Seq SequenceType.Tuple [k, v] :: pairKv rest

/-- src/eval.rs `make_kvlist`: `ensure!(items.len() & 1 == 0, "Bad
value for setitems")`, then pair up. -/
def make_kvlist (items : List Value) : Except EvalErr (List Value) :=
  if items.length % 2 = 0 then Except.ok (pairKv items)
  else Except.error (EvalErr.err "Bad value for setitems")

/-- The evaluator's working state: operand stack plus memo table. -/
structure EvalState where
  stack : PickleStack
  memo : Memo

/-- The shared `match rtop { Global(_, args) | Seq(_, args) => ..,
_wut => bail!(msg) }` bodies of the APPEND/APPENDS/ADDITEMS/SETITEM/
SETITEMS handlers: apply `f` to the target's argument list, or fail
with that handler's "bad stack top" message. -/
def updateCollection (msg : String) (f : List Value → List Value) :
    Value → Except EvalErr Value
  | Value.Global target args => Except.ok (Value.Global target (f args))
  | Value.Seq st args => Except.ok (Value.Seq st (f args))
  | _ => Except.error (EvalErr.err msg)

/-- The `stack.last_mut()` + `memo.resolve_mut(top, true)` + mutate
pattern of the APPEND-family handlers: peek the stack top; if it is a
`Ref`, the mutation target is the memo slot `resolve_mut` lands on
(mutating the memo, leaving the `Ref` on the stack, and panicking if
the final id is absent); otherwise the stack slot itself is mutated. -/
def mutateTop (st : EvalState) (msg : String) (f : List Value → List Value) :
    Except EvalErr EvalState :=
  match st.stack with
  | [] => Except.error (EvalErr.err "Unexpected empty stack")
  | top :: rest =>
    match top with
    | Value.Ref mid =>
      match resolveMutGo st.memo true (MAX_DEPTH - 1) mid with
      | Except.error e => Except.error e
      | Except.ok tgt =>
        match memoFind st.memo tgt with
        | Option.none => Except.error (EvalErr.panicked "Impossible: Missing memo id")
        | some tv =>
          match updateCollection msg f tv with
          | Except.error e => Except.error e
          | Except.ok tv' => Except.ok ⟨top :: rest, memoInsert st.memo tgt tv'⟩
    | _ =>
      match updateCollection msg f top with
      | Except.error e => Except.error e
      | Except.ok tv' => Except.ok ⟨tv' :: rest, st.memo⟩

/-- Decimal digit accumulation for `parseU32`. -/
def parseDecNatAux : List Char → Nat → Option Nat
  | [], acc => some acc
  | c :: rest, acc =>
    if 48 ≤ c.toNat ∧ c.toNat ≤ 57 then
      parseDecNatAux rest (acc * 10 + (c.toNat - 48))
    else Option.none

/-- Rust's `str::parse::<u32>()` as used for the text memo ids of
`GET`/`PUT`: decimal digits, failing on empty/non-digit input or
overflow past `u32::MAX` (the optional leading sign Rust tolerates is
not modelled; no claim touches it). -/
def parseU32 (s : String) : Option Nat :=
  match s.data with
  | [] => Option.none
  | cs =>
    match parseDecNatAux cs 0 with
    | Option.none => Option.none
    | some n => if n < 2 ^ 32 then some n else Option.none

/-- src/eval.rs `PickleStack::pop`. -/
def stackPop : PickleStack → Except EvalErr (Value × PickleStack)
  | [] => Except.error (EvalErr.err "Stack underrun")
  | v :: rest => Except.ok (v, rest)

/-- src/eval.rs `PickleStack::pop_mark`: the popped items are returned
in their original push order (`stack[markidx+1..]` of the `Vec`). -/
def pop_mark (s : PickleStack) : Except EvalErr (List Value × PickleStack) :=
  match splitAtMark s with
  | Option.none => Except.error (EvalErr.err "Missing MARK")
  | some (pre, below) => Except.ok (pre.reverse, below)

/-- One iteration of the `for op in x.iter()` body of src/eval.rs
`evaluate` (every arm except the `STOP => break`, which lives in the
loop `evalLoop`). The final catch-all pushes the op as `Value::Raw` —
note that `GLOBAL` has no arm of its own and therefore lands there. -/
def evalStep (st : EvalState) (op : PickleOp) : Except EvalErr EvalState :=
  match op with
  | PickleOp.MARK => Except.ok ⟨Value.Raw PickleOp.MARK :: st.stack, st.memo⟩
  | PickleOp.STOP => Except.ok st
  | PickleOp.POP => do
    let (_, s) ← stackPop st.stack
    Except.ok ⟨s, st.memo⟩
  | PickleOp.POP_MARK => do
    let (_, s) ← pop_mark st.stack
    Except.ok ⟨s, st.memo⟩
  | PickleOp.DUP =>
    match st.stack with
    | [] => Except.error (EvalErr.err "Cannot DUP with empty stack")
    | item :: rest => Except.ok ⟨item :: item :: rest, st.memo⟩
  | PickleOp.PERSID pid =>
    Except.ok ⟨Value.PersId (Value.String pid) :: st.stack, st.memo⟩
  | PickleOp.BINPERSID => do
    let (pid, s) ← stackPop st.stack
    Except.ok ⟨Value.PersId pid :: s, st.memo⟩
  | PickleOp.REDUCE => do
    let (a, s) ← stackPop st.stack
    let args ← resolve st.memo a true
    let (t, s) ← stackPop s
    let target ← resolve st.memo t true
    Except.ok ⟨Value.Global target [args] :: s, st.memo⟩
  | PickleOp.BUILD => do
    let (a, s) ← stackPop st.stack
    let args ← resolve st.memo a true
    let (t, s) ← stackPop s
    let target ← resolve st.memo t true
    Except.ok ⟨Value.Build target args :: s, st.memo⟩
  | PickleOp.EMPTY_DICT =>
    Except.ok ⟨Value.Seq SequenceType.Dict [] :: st.stack, st.memo⟩
  | PickleOp.GET mids =>
    match parseU32 mids with
    | Option.none => Except.error (EvalErr.err "invalid memo id")
    | some mid => Except.ok ⟨Value.Ref mid :: st.stack, st.memo⟩
  | PickleOp.BINGET mid => Except.ok ⟨Value.Ref mid :: st.stack, st.memo⟩
  | PickleOp.LONG_BINGET mid => Except.ok ⟨Value.Ref mid :: st.stack, st.memo⟩
  | PickleOp.EMPTY_LIST =>
    Except.ok ⟨Value.Seq SequenceType.List [] :: st.stack, st.memo⟩
  | PickleOp.BINPUT mid => do
    let (v, s) ← stackPop st.stack
    Except.ok ⟨Value.Ref mid :: s, memoInsert st.memo mid v⟩
  | PickleOp.LONG_BINPUT mid => do
    let (v, s) ← stackPop st.stack
    Except.ok ⟨Value.Ref mid :: s, memoInsert st.memo mid v⟩
  | PickleOp.TUPLE => do
    let (postmark, s) ← pop_mark st.stack
    Except.ok ⟨Value.Seq SequenceType.Tuple postmark :: s, st.memo⟩
  | PickleOp.EMPTY_TUPLE =>
    Except.ok ⟨Value.Seq SequenceType.Tuple [] :: st.stack, st.memo⟩
  | PickleOp.SETITEM => do
    let (v, s) ← stackPop st.stack
    let (k, s) ← stackPop s
    mutateTop ⟨s, st.memo⟩ "Bad stack top for SETITEM!"
      (fun args => args ++ [Value.Seq SequenceType.Tuple [k, v]])
  | PickleOp.SETITEMS => do
    let (items, s) ← pop_mark st.stack
    let kvitems ← make_kvlist items
    mutateTop ⟨s, st.memo⟩ "Bad stack top for SETITEMS"
      (fun args => args ++ [Value.Seq SequenceType.Tuple kvitems])
  | PickleOp.PROTO p =>
    if p ≤ MAX_PROTOCOL then Except.ok st
    else Except.error (EvalErr.err ("Unsupported protocol " ++ toString p))
  | PickleOp.TUPLE1 => do
    let (t1, s) ← stackPop st.stack
    Except.ok ⟨Value.Seq SequenceType.Tuple [t1] :: s, st.memo⟩
  | PickleOp.TUPLE2 => do
    let (t1, s) ← stackPop st.stack
    let (t2, s) ← stackPop s
    Except.ok ⟨Value.Seq SequenceType.Tuple [t1, t2] :: s, st.memo⟩
  | PickleOp.TUPLE3 => do
    let (t1, s) ← stackPop st.stack
    let (t2, s) ← stackPop s
    let (t3, s) ← stackPop s
    Except.ok ⟨Value.Seq SequenceType.Tuple [t1, t2, t3] :: s, st.memo⟩
  | PickleOp.APPEND => do
    let (v, s) ← stackPop st.stack
    mutateTop ⟨s, st.memo⟩ "Bad stack top for APPEND!" (fun args => args ++ [v])
  | PickleOp.APPENDS => do
    let (postmark, s) ← pop_mark st.stack
    mutateTop ⟨s, st.memo⟩ "Bad stack top for APPENDS" (fun args => args ++ postmark)
  | PickleOp.DICT => do
    let (items, s) ← pop_mark st.stack
    let kvitems ← make_kvlist items
    Except.ok ⟨Value.Seq SequenceType.Dict kvitems :: s, st.memo⟩
  | PickleOp.LIST => do
    let (items, s) ← pop_mark st.stack
    Except.ok ⟨Value.Seq SequenceType.List items :: s, st.memo⟩
  | PickleOp.INST mn cn => do
    let (args, s) ← pop_mark st.stack
    Except.ok
      ⟨Value.Object (Value.Seq SequenceType.Tuple [Value.String mn, Value.String cn])
          args :: s,
        st.memo⟩
  | PickleOp.OBJ =>
    -- `stack.0[markidx + 2..]` / `stack.0[markidx + 1]`: when the mark
    -- is the topmost entry these slice/index operations are out of
    -- bounds and the Rust code panics rather than erroring.
    match splitAtMark st.stack with
    | Option.none => Except.error (EvalErr.err "Missing MARK")
    | some (pre, below) =>
      match pre.reverse with
      | [] => Except.error (EvalErr.panicked "range start index out of range")
      | cls :: args => Except.ok ⟨Value.Object cls args :: below, st.memo⟩
  | PickleOp.PUT midstr =>
    match parseU32 midstr with
    | Option.none => Except.error (EvalErr.err "invalid memo id")
    | some mid => do
      let (v, s) ← stackPop st.stack
      Except.ok ⟨Value.Ref mid :: s, memoInsert st.memo mid v⟩
  | PickleOp.NEWOBJ => do
    let (args, s) ← stackPop st.stack
    let (cls, s) ← stackPop s
    Except.ok ⟨Value.Object cls [args] :: s, st.memo⟩
  | PickleOp.EMPTY_SET =>
    Except.ok ⟨Value.Seq SequenceType.Set [] :: st.stack, st.memo⟩
  | PickleOp.ADDITEMS => do
    let (postmark, s) ← pop_mark st.stack
    mutateTop ⟨s, st.memo⟩ "Bad stack top for ADDITEMS" (fun args => args ++ postmark)
  | PickleOp.FROZENSET => do
    let (items, s) ← pop_mark st.stack
    Except.ok ⟨Value.Seq SequenceType.FrozenSet items :: s, st.memo⟩
  | PickleOp.NEWOBJ_EX => do
    let (kwargs, s) ← stackPop st.stack
    let (args, s) ← stackPop s
    let (cls, s) ← stackPop s
    Except.ok
      ⟨Value.Object cls [Value.Seq SequenceType.Tuple [args, kwargs]] :: s, st.memo⟩
  | PickleOp.STACK_GLOBAL => do
    let (g, s) ← stackPop st.stack
    let gn ← resolve st.memo g true
    let (mv, s) ← stackPop s
    let mn ← resolve st.memo mv true
    Except.ok
      ⟨Value.Global (Value.Seq SequenceType.Tuple [gn, mn]) [] :: s, st.memo⟩
  | PickleOp.MEMOIZE =>
    match st.stack with
    | [] => Except.error (EvalErr.err "Stack underrun")
    | item :: _ => Except.ok ⟨st.stack, memoInsert st.memo st.memo.length item⟩
  | op => Except.ok ⟨Value.Raw op :: st.stack, st.memo⟩

/-- The `PickleOp::STOP => break` test of the evaluator loop. -/
def isSTOP : PickleOp → Bool
  | PickleOp.STOP => true
  | _ => false

/-- The `for op in x.iter()` loop of src/eval.rs `evaluate`: run each
instruction in order, stopping early (successfully) at `STOP`. -/
def evalLoop : EvalState → List PickleOp → Except EvalErr EvalState
  | st, [] => Except.ok st
  | st, op :: rest =>
    if isSTOP op then Except.ok st
    else
      match evalStep st op with
      | Except.error e => Except.error e
      | Except.ok st' => evalLoop st' rest

/-- Little-endian byte-list to natural number
(`BigInt::from_bytes_le(Sign::Plus, b)`). -/
def leBytesNat : List Nat → Nat
  | [] => 0
  | x :: rest => x + 256 * leBytesNat rest

/-- The LONG1/LONG4 arm of src/value.rs `fix_value` for a non-empty
blob `b`. The source computes `is_neg = b[blen - 1] & 80 != 0` — with
DECIMAL `80` (= 0x50), not `0x80`; the embedding reproduces that bit
test verbatim. When "negative", `1 << (blen * 8)` is subtracted (the
two's-complement correction), then the result narrows to `Int` when it
fits in `i64` and stays `BigInt` otherwise. -/
def longFromBytes (b : List Nat) : Value :=
  let blen := b.length
  let base : Int := leBytesNat b
  let bint : Int := if b.getLastD 0 &&& 80 ≠ 0 then base - 2 ^ (blen * 8) else base
  if -(2 : Int) ^ 63 ≤ bint ∧ bint ≤ 2 ^ 63 - 1 then Value.Int bint
  else Value.BigInt bint

/-- Rust `std::str::from_utf8` modelled on byte lists: strict UTF-8
decoding (continuation ranges per leading byte, rejecting overlong
forms, surrogates and values above U+10FFFF). -/
def utf8DecodeAux : List Nat → Option (List Char)
  | [] => some []
  | b :: rest =>
    if b < 0x80 then (utf8DecodeAux rest).map (fun cs => Char.ofNat b :: cs)
    else if 0xC2 ≤ b ∧ b ≤ 0xDF then
      match rest with
      | c1 :: rest' =>
        if 0x80 ≤ c1 ∧ c1 < 0xC0 then
          (utf8DecodeAux rest').map
            (fun cs => Char.ofNat ((b - 0xC0) * 0x40 + (c1 - 0x80)) :: cs)
        else Option.none
      | _ => Option.none
    else if 0xE0 ≤ b ∧ b ≤ 0xEF then
      match rest with
      | c1 :: c2 :: rest' =>
        if (if b = 0xE0 then 0xA0 else 0x80) ≤ c1 ∧
            c1 ≤ (if b = 0xED then 0x9F else 0xBF) ∧ 0x80 ≤ c2 ∧ c2 < 0xC0 then
          (utf8DecodeAux rest').map
            (fun cs =>
              Char.ofNat ((b - 0xE0) * 0x1000 + (c1 - 0x80) * 0x40 + (c2 - 0x80)) :: cs)
        else Option.none
      | _ => Option.none
    else if 0xF0 ≤ b ∧ b ≤ 0xF4 then
      match rest with
      | c1 :: c2 :: c3 :: rest' =>
        if (if b = 0xF0 then 0x90 else 0x80) ≤ c1 ∧
            c1 ≤ (if b = 0xF4 then 0x8F else 0xBF) ∧
            0x80 ≤ c2 ∧ c2 < 0xC0 ∧ 0x80 ≤ c3 ∧ c3 < 0xC0 then
          (utf8DecodeAux rest').map
            (fun cs =>
              Char.ofNat
                  ((b - 0xF0) * 0x40000 + (c1 - 0x80) * 0x1000 + (c2 - 0x80) * 0x40 +
                    (c3 - 0x80)) ::
                cs)
        else Option.none
      | _ => Option.none
    else Option.none

/-- Rust `std::str::from_utf8` on a byte list, producing a `String`. -/
def utf8Decode (bs : List Nat) : Option String :=
  (utf8DecodeAux bs).map (fun cs => String.mk cs)

/-- src/value.rs `fix_value`: normalize a `Value::Raw` passthrough
instruction into its canonical value; everything else passes through.
(The source's `Result` never actually errors; the `Except` is kept to
mirror the signature.) -/
def fix_value (val : Value) : Except EvalErr Value :=
  match val with
  | Value.Raw rv =>
    Except.ok
      (match rv with
       | PickleOp.BININT n => Value.Int n
       | PickleOp.BININT1 n => Value.Int n
       | PickleOp.BININT2 n => Value.Int n
       | PickleOp.LONG1 b => if b.isEmpty then Value.RawNum rv else longFromBytes b
       | PickleOp.LONG4 b => if b.isEmpty then Value.RawNum rv else longFromBytes b
       | PickleOp.BINFLOAT bits => Value.Float bits
       | PickleOp.BINUNICODE s => Value.String s
       | PickleOp.BINUNICODE8 s => Value.String s
       | PickleOp.SHORT_BINUNICODE s => Value.String s
       | PickleOp.BINBYTES b => Value.Bytes b
       | PickleOp.BINBYTES8 b => Value.Bytes b
       | PickleOp.SHORT_BINBYTES b => Value.Bytes b
       | PickleOp.BYTEARRAY8 b => Value.Bytes b
       | PickleOp.BINSTRING b =>
         (match utf8Decode b with
          | some s => Value.String s
          | Option.none => Value.Bytes b)
       | PickleOp.SHORT_BINSTRING b =>
         (match utf8Decode b with
          | some s => Value.String s
          | Option.none => Value.Bytes b)
       | PickleOp.NEWTRUE => Value.Bool true
       | PickleOp.NEWFALSE => Value.Bool false
       | PickleOp.NONE => Value.None
       | PickleOp.INT s =>
         if s = "01" then Value.Bool true
         else if s = "00" then Value.Bool false
         else Value.RawNum rv
       | PickleOp.FLOAT _ => Value.RawNum rv
       | PickleOp.LONG _ => Value.RawNum rv
       | _ => val)
  | v => Except.ok v

/-- src/eval.rs `PickleMemo::resolve_all_refs`, with
`fuel = MAX_DEPTH - depth` (so `fuel = 0` is the `depth >= MAX_DEPTH`
early return, which skips the fix-up). The source's
`resolve_all_refs_iter(depth + 1, ..)` on child lists is inlined here
as the inner `match fuel` (its own depth check, then children at
`depth + 2`). -/
def resolve_all_refs (m : Memo) (fix_values : Bool) :
    Nat → Value → Except EvalErr Value
  | 0, val => Except.ok val
  | fuel + 1, val => do
    let output ←
      (match val with
       | Value.Ref mid => do
         let r ← resolve m (Value.Ref mid) true
         resolve_all_refs m fix_values fuel r
       | Value.App apped apps => do
         let apped' ← resolve_all_refs m fix_values fuel apped
         let apps' ←
           match fuel with
           | 0 => Except.ok apps
           | f + 1 => apps.mapM (resolve_all_refs m fix_values f)
         Except.ok (Value.App apped' apps')
       | Value.Object apped apps => do
         let apped' ← resolve_all_refs m fix_values fuel apped
         let apps' ←
           match fuel with
           | 0 => Except.ok apps
           | f + 1 => apps.mapM (resolve_all_refs m fix_values f)
         Except.ok (Value.Object apped' apps')
       | Value.Build apped apps => do
         let apped' ← resolve_all_refs m fix_values fuel apped
         let apps' ← resolve_all_refs m fix_values fuel apps
         Except.ok (Value.Build apped' apps')
       | Value.Global target args => do
         let target' ← resolve_all_refs m fix_values fuel target
         let args' ←
           match fuel with
           | 0 => Except.ok args
           | f + 1 => args.mapM (resolve_all_refs m fix_values f)
         Except.ok (Value.Global target' args')
       | Value.Seq st args => do
         let args' ←
           match fuel with
           | 0 => Except.ok args
           | f + 1 => args.mapM (resolve_all_refs m fix_values f)
         Except.ok (Value.Seq st args')
       | Value.PersId pid => do
         let pid' ← resolve_all_refs m fix_values fuel pid
         Except.ok (Value.PersId pid')
       | v => Except.ok v)
    if fix_values then fix_value output else Except.ok output

/-- src/eval.rs `PickleMemo::resolve_all_refs_iter`, with
`fuel = MAX_DEPTH - depth`. -/
def resolve_all_refs_iter (m : Memo) (fix_values : Bool) :
    Nat → List Value → Except EvalErr (List Value)
  | 0, vals => Except.ok vals
  | fuel + 1, vals => vals.mapM (resolve_all_refs m fix_values fuel)

/-- src/eval.rs `evaluate`: run the instruction loop from an empty
stack and memo, then either return the raw stack (in `Vec` order,
bottom of stack first) with the memo, or run the resolve-and-fix pass
over the final stack first. -/
def evaluate (x : List PickleOp) (resolve_refs : Bool) :
    Except EvalErr (List Value × Memo) := do
  let st ← evalLoop ⟨[], []⟩ x
  if !resolve_refs then Except.ok (st.stack.reverse, st.memo)
  else do
    let vals ← resolve_all_refs_iter st.memo true MAX_DEPTH st.stack.reverse
    Except.ok (vals, st.memo)

/-- nom `take`: split off exactly `n` bytes, failing on short input. -/
def takeBytes (n : Nat) (i : List Nat) : Option (List Nat × List Nat) :=
  if n ≤ i.length then some (i.take n, i.drop n) else Option.none

/-- nom `le_u8`/`le_u16`/`le_u32`/`le_u64`: read a `w`-byte
little-endian unsigned integer. -/
def readLE (w : Nat) (i : List Nat) : Option (Nat × List Nat) :=
  (takeBytes w i).map (fun p => (leBytesNat p.1, p.2))

/-- Reinterpret a `w`-bit unsigned value as two's-complement signed
(nom `le_i16`/`le_i32`). -/
def toSigned (w : Nat) (n : Nat) : Int :=
  if n < 2 ^ (w - 1) then (n : Int) else (n : Int) - 2 ^ w

/-- nom `length_data`: read a `lenWidth`-byte little-endian length,
then that many raw bytes. -/
def lengthData (lenWidth : Nat) (i : List Nat) : Option (List Nat × List Nat) :=
  match readLE lenWidth i with
  | Option.none => Option.none
  | some (len, i') => takeBytes len i'

/-- src/parsers.rs `parse_string_nl`: take until a line feed, require
the prefix to be UTF-8, then consume the line feed. -/
def parse_string_nl (i : List Nat) : Option (String × List Nat) :=
  match utf8Decode (i.takeWhile (fun c => c != 10)), i.dropWhile (fun c => c != 10) with
  | some s, 10 :: rest => some (s, rest)
  | _, _ => Option.none

/-- src/parsers.rs `parse_op`: decode one opcode byte and its
tag-specific argument. Byte values are those of src/ops.rs `p_op`.
The 0x8c (`p_op::SHORT_BINUNICODE`) arm reproduces the source exactly:
it reads a 1-byte length but wraps the decoded text in
`PickleOp::BINUNICODE8`. -/
def parse_op (i : List Nat) : Option (PickleOp × List Nat) :=
  match i with
  | [] => Option.none
  | opcode :: i =>
    match opcode with
    | 0x28 => some (PickleOp.MARK, i)
    | 0x2E => some (PickleOp.STOP, i)
    | 0x30 => some (PickleOp.POP, i)
    | 0x31 => some (PickleOp.POP_MARK, i)
    | 0x32 => some (PickleOp.DUP, i)
    | 0x46 => (parse_string_nl i).map (fun p => (PickleOp.FLOAT p.1, p.2))
    | 0x49 => (parse_string_nl i).map (fun p => (PickleOp.INT p.1, p.2))
    | 0x4A => (readLE 4 i).map (fun p => (PickleOp.BININT (toSigned 32 p.1), p.2))
    | 0x4B => (readLE 1 i).map (fun p => (PickleOp.BININT1 p.1, p.2))
    | 0x4C => (parse_string_nl i).map (fun p => (PickleOp.LONG p.1, p.2))
    | 0x4D => (readLE 2 i).map (fun p => (PickleOp.BININT2 p.1, p.2))
    | 0x4E => some (PickleOp.NONE, i)
    | 0x50 => (parse_string_nl i).map (fun p => (PickleOp.PERSID p.1, p.2))
    | 0x51 => some (PickleOp.BINPERSID, i)
    | 0x52 => some (PickleOp.REDUCE, i)
    | 0x53 => (parse_string_nl i).map (fun p => (PickleOp.STRING p.1, p.2))
    | 0x54 => (lengthData 4 i).map (fun p => (PickleOp.BINSTRING p.1, p.2))
    | 0x55 => (lengthData 1 i).map (fun p => (PickleOp.SHORT_BINSTRING p.1, p.2))
    | 0x56 => (parse_string_nl i).map (fun p => (PickleOp.UNICODE p.1, p.2))
    | 0x58 =>
      (match lengthData 4 i with
       | Option.none => Option.none
       | some (b, rest) =>
         match utf8Decode b with
         | Option.none => Option.none
         | some s => some (PickleOp.BINUNICODE s, rest))
    | 0x61 => some (PickleOp.APPEND, i)
    | 0x62 => some (PickleOp.BUILD, i)
    | 0x63 =>
      (match parse_string_nl i with
       | Option.none => Option.none
       | some (mn, i') =>
         match parse_string_nl i' with
         | Option.none => Option.none
         | some (gn, i'') => some (PickleOp.GLOBAL mn gn, i''))
    | 0x64 => some (PickleOp.DICT, i)
    | 0x7D => some (PickleOp.EMPTY_DICT, i)
    | 0x65 => some (PickleOp.APPENDS, i)
    | 0x67 => (parse_string_nl i).map (fun p => (PickleOp.GET p.1, p.2))
    | 0x68 => (readLE 1 i).map (fun p => (PickleOp.BINGET p.1, p.2))
    | 0x69 =>
      (match parse_string_nl i with
       | Option.none => Option.none
       | some (mn, i') =>
         match parse_string_nl i' with
         | Option.none => Option.none
         | some (cn, i'') => some (PickleOp.INST mn cn, i''))
    | 0x6A => (readLE 4 i).map (fun p => (PickleOp.LONG_BINGET p.1, p.2))
    | 0x6C => some (PickleOp.LIST, i)
    | 0x5D => some (PickleOp.EMPTY_LIST, i)
    | 0x6F => some (PickleOp.OBJ, i)
    | 0x70 => (parse_string_nl i).map (fun p => (PickleOp.PUT p.1, p.2))
    | 0x71 => (readLE 1 i).map (fun p => (PickleOp.BINPUT p.1, p.2))
    | 0x72 => (readLE 4 i).map (fun p => (PickleOp.LONG_BINPUT p.1, p.2))
    | 0x73 => some (PickleOp.SETITEM, i)
    | 0x74 => some (PickleOp.TUPLE, i)
    | 0x29 => some (PickleOp.EMPTY_TUPLE, i)
    | 0x75 => some (PickleOp.SETITEMS, i)
    | 0x47 => (readLE 8 i).map (fun p => (PickleOp.BINFLOAT p.1, p.2))
    | 0x80 => (readLE 1 i).map (fun p => (PickleOp.PROTO p.1, p.2))
    | 0x81 => some (PickleOp.NEWOBJ, i)
    | 0x82 => (readLE 1 i).map (fun p => (PickleOp.EXT1 p.1, p.2))
    | 0x83 => (readLE 2 i).map (fun p => (PickleOp.EXT2 (toSigned 16 p.1), p.2))
    | 0x84 => (readLE 4 i).map (fun p => (PickleOp.EXT4 (toSigned 32 p.1), p.2))
    | 0x85 => some (PickleOp.TUPLE1, i)
    | 0x86 => some (PickleOp.TUPLE2, i)
    | 0x87 => some (PickleOp.TUPLE3, i)
    | 0x88 => some (PickleOp.NEWTRUE, i)
    | 0x89 => some (PickleOp.NEWFALSE, i)
    | 0x8A => (lengthData 1 i).map (fun p => (PickleOp.LONG1 p.1, p.2))
    | 0x8B => (lengthData 4 i).map (fun p => (PickleOp.LONG4 p.1, p.2))
    | 0x42 => (lengthData 4 i).map (fun p => (PickleOp.BINBYTES p.1, p.2))
    | 0x8E => (lengthData 8 i).map (fun p => (PickleOp.BINBYTES8 p.1, p.2))
    | 0x43 => (lengthData 1 i).map (fun p => (PickleOp.SHORT_BINBYTES p.1, p.2))
    | 0x8D =>
      (match lengthData 8 i with
       | Option.none => Option.none
       | some (b, rest) =>
         match utf8Decode b with
         | Option.none => Option.none
         | some s => some (PickleOp.BINUNICODE8 s, rest))
    | 0x8C =>
      -- p_op::SHORT_BINUNICODE: the source wraps the result in
      -- PickleOp::BINUNICODE8 here, not PickleOp::SHORT_BINUNICODE.
      (match lengthData 1 i with
       | Option.none => Option.none
       | some (b, rest) =>
         match utf8Decode b with
         | Option.none => Option.none
         | some s => some (PickleOp.BINUNICODE8 s, rest))
    | 0x8F => some (PickleOp.EMPTY_SET, i)
    | 0x90 => some (PickleOp.ADDITEMS, i)
    | 0x91 => some (PickleOp.FROZENSET, i)
    | 0x92 => some (PickleOp.NEWOBJ_EX, i)
    | 0x93 => some (PickleOp.STACK_GLOBAL, i)
    | 0x94 => some (PickleOp.MEMOIZE, i)
    | 0x95 => (readLE 8 i).map (fun p => (PickleOp.FRAME p.1, p.2))
    | 0x96 => (lengthData 8 i).map (fun p => (PickleOp.BYTEARRAY8 p.1, p.2))
    | 0x97 => some (PickleOp.NEXT_BUFFER, i)
    | 0x98 => some (PickleOp.READONLY_BUFFER, i)
    | _ => Option.none

/-- Is a value of the `Global` shape? (Used to state that `evaluate`
did *not* produce a `Global` node.) -/
def isGlobalValue : Value → Bool
  | Value.Global _ _ => true
  | _ => false

/-- Flatten a key/value pair list into the alternating
`[k1, v1, k2, v2, ...]` stack layout consumed by `make_kvlist`. -/
def kvFlat : List (Value × Value) → List Value
  | [] => []
  | (k, v) :: rest => k :: v :: kvFlat rest

/-- A successful memo lookup returns an entry of the table. -/
theorem memoFind_mem {m : Memo} {mid : Nat} {v : Value}
    (h : memoFind m mid = some v) : (mid, v) ∈ m := by
  induction m with
  | nil => simp [memoFind] at h
  | cons p rest ih =>
    obtain ⟨k, w⟩ := p
    by_cases hk : mid = k
    · subst hk
      simp [memoFind] at h
      simp [h]
    · simp [memoFind, hk] at h
      exact List.mem_cons_of_mem _ (ih h)

/-- Scanning for the mark finds the explicit `MARK` sentinel when
nothing above it is a mark. -/
theorem splitAtMark_append (pre below : List Value)
    (h : ∀ v ∈ pre, isMarkVal v = false) :
    splitAtMark (pre ++ Value.Raw PickleOp.MARK :: below) = some (pre, below) := by
  induction pre with
  | nil => simp [splitAtMark, isMarkVal]
  | cons v rest ih =>
    have hv : isMarkVal v = false := h v (by simp)
    have hrest := ih (fun w hw => h w (by simp [hw]))
    simp [splitAtMark, hv, hrest]

/-- Scanning a stack holding no mark fails. -/
theorem splitAtMark_none (s : List Value) (h : ∀ v ∈ s, isMarkVal v = false) :
    splitAtMark s = Option.none := by
  induction s with
  | nil => rfl
  | cons v rest ih =>
    have hv : isMarkVal v = false := h v (by simp)
    have hrest := ih (fun w hw => h w (by simp [hw]))
    simp [splitAtMark, hv, hrest]

/-- Applying `pop_mark` to a stack of the shape `above ++ MARK :: below` (with
no mark in `above`) returns the above-mark values in push order. -/
theorem pop_mark_append (pre below : List Value)
    (h : ∀ v ∈ pre, isMarkVal v = false) :
    pop_mark (pre ++ Value.Raw PickleOp.MARK :: below) =
      Except.ok (pre.reverse, below) := by
  simp [pop_mark, splitAtMark_append pre below h]

/-- Applying `pop_mark` to a markless stack reports the missing mark. -/
theorem pop_mark_missing (s : List Value) (h : ∀ v ∈ s, isMarkVal v = false) :
    pop_mark s = Except.error (EvalErr.err "Missing MARK") := by
  simp [pop_mark, splitAtMark_none s h]

/-- Pairing the flattened key/value list recovers the pair tuples in
order. -/
theorem pairKv_kvFlat (kvs : List (Value × Value)) :
    pairKv (kvFlat kvs) =
      kvs.map (fun kv => Value.Seq SequenceType.Tuple [kv.1, kv.2]) := by
  induction kvs with
  | nil => rfl
  | cons kv rest ih =>
    obtain ⟨k, v⟩ := kv
    simp [kvFlat, pairKv, ih]

/-- The flattened key/value list has even length. -/
theorem kvFlat_length (kvs : List (Value × Value)) :
    (kvFlat kvs).length = 2 * kvs.length := by
  induction kvs with
  | nil => rfl
  | cons kv rest ih =>
    obtain ⟨k, v⟩ := kv
    simp [kvFlat, ih]
    omega

/-- Applying `make_kvlist` to a flattened pair list succeeds with the pair
tuples in order. -/
theorem make_kvlist_kvFlat (kvs : List (Value × Value)) :
    make_kvlist (kvFlat kvs) =
      Except.ok (kvs.map (fun kv => Value.Seq SequenceType.Tuple [kv.1, kv.2])) := by
  have he : (kvFlat kvs).length % 2 = 0 := by rw [kvFlat_length]; omega
  simp [make_kvlist, he, pairKv_kvFlat]

/-- The function `make_kvlist` rejects odd-length item lists. -/
theorem make_kvlist_odd (items : List Value) (h : items.length % 2 = 1) :
    make_kvlist items = Except.error (EvalErr.err "Bad value for setitems") := by
  have : ¬ items.length % 2 = 0 := by omega
  simp [make_kvlist, this]

/-- The `resolve` loop performs at most `fuel + 1` memo lookups. -/
theorem resolveSteps_le (m : Memo) (r : Bool) :
    ∀ fuel v, resolveSteps m r fuel v ≤ fuel + 1 := by
  intro fuel
  induction fuel with
  | zero =>
    intro v
    cases v <;> simp only [resolveSteps] <;> try omega
    case Ref mid =>
      cases h : memoFind m mid with
      | none => simp [h]
      | some val => cases r <;> simp [h]
  | succ fuel ih =>
    intro v
    cases v <;> simp only [resolveSteps] <;> try omega
    case Ref mid =>
      cases h : memoFind m mid with
      | none => simp [h]
      | some val =>
        cases r with
        | false => simp [h]
        | true =>
          have := ih val
          simp only [h, Bool.not_true, Bool.false_eq_true, if_false]
          omega

/-- In a memo table all of whose `Ref` entries point at present ids,
the recursive resolve loop never fails on a value whose own `Ref`
target (if any) is present: whatever the chain shape — including
cycles — it returns a value. -/
theorem resolveGo_ok (m : Memo)
    (hm : ∀ p ∈ m, refTargetOk m p.2 = true) :
    ∀ fuel v, refTargetOk m v = true →
      ∃ w, resolveGo m true fuel v = Except.ok w := by
  intro fuel
  induction fuel with
  | zero =>
    intro v hv
    cases v <;> simp only [resolveGo] <;> try exact ⟨_, rfl⟩
    case Ref mid =>
      simp only [refTargetOk] at hv
      obtain ⟨val, hval⟩ := Option.isSome_iff_exists.mp hv
      simp [hval]
  | succ fuel ih =>
    intro v hv
    cases v <;> simp only [resolveGo] <;> try exact ⟨_, rfl⟩
    case Ref mid =>
      simp only [refTargetOk] at hv
      obtain ⟨val, hval⟩ := Option.isSome_iff_exists.mp hv
      have hval_ok : refTargetOk m val = true := hm (mid, val) (memoFind_mem hval)
      obtain ⟨w, hw⟩ := ih val hval_ok
      exact ⟨w, by simp [hval, hw]⟩

/-- Without a `STOP` the evaluator loop is exactly a monadic fold of
the one-instruction step over the whole instruction list. -/
theorem evalLoop_eq_foldlM (ops : List PickleOp)
    (h : ∀ op ∈ ops, isSTOP op = false) :
    ∀ st, evalLoop st ops = ops.foldlM evalStep st := by
  induction ops with
  | nil => intro st; rfl
  | cons op rest ih =>
    intro st
    have hop : isSTOP op = false := h op (by simp)
    have hrest := ih (fun o ho => h o (by simp [ho]))
    cases hs : evalStep st op with
    | error e => simp [evalLoop, hop, hs, Bind.bind, Except.bind]
    | ok st' => simp [evalLoop, hop, hs, hrest st', Bind.bind, Except.bind]

/-- Appending a final `STOP` to a `STOP`-free program does not change
the loop's result. -/
theorem evalLoop_append_stop (ops : List PickleOp)
    (h : ∀ op ∈ ops, isSTOP op = false) :
    ∀ st, evalLoop st (ops ++ [PickleOp.STOP]) = evalLoop st ops := by
  induction ops with
  | nil => intro st; rfl
  | cons op rest ih =>
    intro st
    have hop : isSTOP op = false := h op (by simp)
    have hrest := ih (fun o ho => h o (by simp [ho]))
    cases hs : evalStep st op with
    | error e => simp [evalLoop, hop, hs]
    | ok st' => simp [evalLoop, hop, hs, hrest st']

/-- C1 (counterexample): evaluating `BININT1 1; BININT1 2; TUPLE2`
builds the tuple `[Raw(BININT1 2), Raw(BININT1 1)]`, whose *last*
element is the first-pushed (not the most-recently-pushed) popped
value — so the claimed "last element is the most-recently-pushed value
/ original push order" fails on the code. -/
theorem tuple2_claim_counterexample :
    evaluate [PickleOp.BININT1 1, PickleOp.BININT1 2, PickleOp.TUPLE2] false =
      Except.ok
        ([Value.Seq SequenceType.Tuple
            [Value.Raw (PickleOp.BININT1 2), Value.Raw (PickleOp.BININT1 1)]],
          []) ∧
    [Value.Raw (PickleOp.BININT1 2), Value.Raw (PickleOp.BININT1 1)].getLast? =
      some (Value.Raw (PickleOp.BININT1 1)) ∧
    Value.Raw (PickleOp.BININT1 1) ≠ Value.Raw (PickleOp.BININT1 2) :=
  ⟨rfl, rfl, by simp⟩

/-- C1 (amended): TUPLE2 (resp. TUPLE3) pops exactly 2 (resp. 3)
values and pushes a single tuple `Seq` holding the popped values in
pop order: the most-recently-pushed popped value is the *first* tuple
element, i.e. the reverse of the original push order. -/
theorem tuple2_tuple3_pop_order (v1 v2 v3 : Value) (rest : PickleStack) (m : Memo) :
    evalStep ⟨v2 :: v1 :: rest, m⟩ PickleOp.TUPLE2 =
      Except.ok ⟨Value.Seq SequenceType.Tuple [v2, v1] :: rest, m⟩ ∧
    evalStep ⟨v3 :: v2 :: v1 :: rest, m⟩ PickleOp.TUPLE3 =
      Except.ok ⟨Value.Seq SequenceType.Tuple [v3, v2, v1] :: rest, m⟩ :=
  ⟨rfl, rfl⟩

/-- C2 (counterexample): the legacy two-string `GLOBAL` instruction
has no dedicated evaluator arm; `GLOBAL("builtins", "int"); STOP`
yields the single stack value `Raw(GLOBAL("builtins", "int"))`, which
is not of the `Global` shape, refuting the claimed `Global`-with-empty-
arguments result. -/
theorem legacy_global_counterexample :
    evaluate [PickleOp.GLOBAL "builtins" "int", PickleOp.STOP] true =
      Except.ok ([Value.Raw (PickleOp.GLOBAL "builtins" "int")], []) ∧
    isGlobalValue (Value.Raw (PickleOp.GLOBAL "builtins" "int")) = false :=
  ⟨rfl, rfl⟩

/-- C2 (amended): the legacy two-string named-global instruction is
pushed verbatim as a `Raw` value (any `GLOBAL mn gn; STOP` program
yields `[Raw (GLOBAL mn gn)]`); only the reference-based `STACK_GLOBAL`
form produces a `Global` node, with the two resolved names wrapped as a
tuple callee and an initially empty argument list. -/
theorem legacy_global_pushed_raw (mn gn : String) (gs ms : String)
    (rest : PickleStack) (m : Memo) :
    evaluate [PickleOp.GLOBAL mn gn, PickleOp.STOP] true =
      Except.ok ([Value.Raw (PickleOp.GLOBAL mn gn)], []) ∧
    evalStep ⟨Value.String gs :: Value.String ms :: rest, m⟩ PickleOp.STACK_GLOBAL =
      Except.ok
        ⟨Value.Global (Value.Seq SequenceType.Tuple [Value.String gs, Value.String ms])
            [] :: rest,
          m⟩ :=
  ⟨rfl, rfl⟩

/-- C3 (code bug): decoding tag byte 0x8c (`p_op::SHORT_BINUNICODE`)
followed by the 1-byte length 1 and the UTF-8 byte 0x61 yields
`PickleOp::BINUNICODE8("a")`, a *different* opcode's instruction, not
`SHORT_BINUNICODE("a")` as the opcode table and the per-opcode
round-trip property require. -/
theorem short_binunicode_tag_decodes_to_binunicode8 :
    parse_op [0x8C, 1, 0x61] = some (PickleOp.BINUNICODE8 "a", []) ∧
    PickleOp.BINUNICODE8 "a" ≠ PickleOp.SHORT_BINUNICODE "a" :=
  ⟨rfl, by simp⟩

/-- C4 (code bug): `fix_value`'s sign test for LONG1/LONG4 blobs uses
`& 80` (decimal 80 = 0x50) instead of `& 0x80`, so the blob `[0x80]`
(two's complement −128, final-byte top bit set) decodes to +128, and
the blob `[0xFF, 0x7F]` (two's complement +32767) decodes to −32769. -/
theorem long_blob_sign_bit_mishandled :
    fix_value (Value.Raw (PickleOp.LONG1 [0x80])) = Except.ok (Value.Int 128) ∧
    fix_value (Value.Raw (PickleOp.LONG1 [0xFF, 0x7F])) =
      Except.ok (Value.Int (-32769)) ∧
    Value.Int 128 ≠ Value.Int (-128) ∧
    Value.Int (-32769) ≠ Value.Int 32767 :=
  ⟨rfl, rfl, by simp, by simp⟩

/-- C6: a protocol-declaration instruction whose value exceeds
`MAX_PROTOCOL` (5) makes the evaluator loop fail with the "Unsupported
protocol" error the moment it is evaluated, whatever instructions
follow; in particular `evaluate` on any program starting with such a
`PROTO` fails outright. -/
theorem proto_above_max_fails_immediately (p : Nat) (hp : MAX_PROTOCOL < p) :
    (∀ (st : EvalState) (rest : List PickleOp),
      evalLoop st (PickleOp.PROTO p :: rest) =
        Except.error (EvalErr.err ("Unsupported protocol " ++ toString p))) ∧
    (∀ (rest : List PickleOp) (r : Bool),
      evaluate (PickleOp.PROTO p :: rest) r =
        Except.error (EvalErr.err ("Unsupported protocol " ++ toString p))) := by
  have hstep : ∀ st : EvalState,
      evalStep st (PickleOp.PROTO p) =
        Except.error (EvalErr.err ("Unsupported protocol " ++ toString p)) := by
    intro st
    simp [evalStep, not_le.mpr hp]
  have hloop : ∀ (st : EvalState) (rest : List PickleOp),
      evalLoop st (PickleOp.PROTO p :: rest) =
        Except.error (EvalErr.err ("Unsupported protocol " ++ toString p)) := by
    intro st rest
    have hred : evalLoop st (PickleOp.PROTO p :: rest) =
        match evalStep st (PickleOp.PROTO p) with
        | Except.error e => Except.error e
        | Except.ok st' => evalLoop st' rest := rfl
    rw [hred, hstep st]
  refine ⟨hloop, ?_⟩
  intro rest r
  simp [evaluate, hloop, Bind.bind, Except.bind]

/-- C6 (witness): `PROTO 6` followed by another instruction fails with
the protocol error, that instruction never running. -/
theorem proto_above_max_fails_immediately_witness :
    evaluate [PickleOp.PROTO 6, PickleOp.EMPTY_DICT] true =
      Except.error (EvalErr.err ("Unsupported protocol " ++ toString 6)) :=
  (proto_above_max_fails_immediately 6 (by decide)).2 [PickleOp.EMPTY_DICT] true

/-- C5: for every value and memo table, recursive `resolve` performs
at most `MAX_DEPTH` (250) memo lookups; a `Ref` to an id absent from
the table is an error; and on any memo table all of whose stored `Ref`s
point at present ids — cyclic chains included — `resolve` returns a
(last-seen) value without error. -/
theorem resolve_depth_bounded_and_total (m : Memo) (v : Value) :
    resolveSteps m true (MAX_DEPTH - 1) v ≤ MAX_DEPTH ∧
    (∀ mid, memoFind m mid = Option.none →
      resolve m (Value.Ref mid) true = Except.error (EvalErr.err "Bad memo id")) ∧
    ((∀ p ∈ m, refTargetOk m p.2 = true) → refTargetOk m v = true →
      ∃ w, resolve m v true = Except.ok w) := by
  refine ⟨?_, ?_, ?_⟩
  · have h := resolveSteps_le m true (MAX_DEPTH - 1) v
    simpa [MAX_DEPTH] using h
  · intro mid h
    simp [resolve, resolveGo, h]
  · intro hm hv
    exact resolveGo_ok m hm (MAX_DEPTH - 1) v hv

/-- C5 (witness): the cyclic memo `{1 ↦ Ref 2, 2 ↦ Ref 1}` resolves
`Ref 1` without error. -/
theorem resolve_depth_bounded_and_total_witness :
    ∃ w, resolve [(1, Value.Ref 2), (2, Value.Ref 1)] (Value.Ref 1) true =
      Except.ok w :=
  (resolve_depth_bounded_and_total [(1, Value.Ref 2), (2, Value.Ref 1)]
        (Value.Ref 1)).2.2
    (by decide) (by decide)

/-- C7: a `DICT` instruction pops the values above the most recent
mark; an even-length `[k1, v1, ..., kn, vn]` run pushes
`Seq(Dict, [Tuple(k1, v1), ..., Tuple(kn, vn)])` — the pair-tuples in
order, never a flat list — while an odd-length run is the
"Bad value for setitems" error. -/
theorem dict_builds_pair_tuples (kvs : List (Value × Value))
    (odditems : List Value) (below : PickleStack) (m : Memo) :
    ((∀ v ∈ kvFlat kvs, isMarkVal v = false) →
      evalStep ⟨(kvFlat kvs).reverse ++ Value.Raw PickleOp.MARK :: below, m⟩
          PickleOp.DICT =
        Except.ok
          ⟨Value.Seq SequenceType.Dict
              (kvs.map (fun kv => Value.Seq SequenceType.Tuple [kv.1, kv.2])) ::
              below,
            m⟩) ∧
    ((∀ v ∈ odditems, isMarkVal v = false) → odditems.length % 2 = 1 →
      evalStep ⟨odditems.reverse ++ Value.Raw PickleOp.MARK :: below, m⟩
          PickleOp.DICT =
        Except.error (EvalErr.err "Bad value for setitems")) := by
  constructor
  · intro h
    have hrev : ∀ v ∈ (kvFlat kvs).reverse, isMarkVal v = false := by
      intro v hv
      exact h v (List.mem_reverse.mp hv)
    have hpm := pop_mark_append ((kvFlat kvs).reverse) below hrev
    simp [evalStep, hpm, List.reverse_reverse, make_kvlist_kvFlat, Bind.bind,
      Except.bind]
  · intro h hodd
    have hrev : ∀ v ∈ odditems.reverse, isMarkVal v = false := by
      intro v hv
      exact h v (List.mem_reverse.mp hv)
    have hpm := pop_mark_append odditems.reverse below hrev
    have hmk := make_kvlist_odd odditems hodd
    simp [evalStep, hpm, List.reverse_reverse, hmk, Bind.bind, Except.bind]

/-- C7 (witness): `MARK, k1, v1, DICT` yields
`Seq(Dict, [Tuple(k1, v1)])`, and an odd run above the mark errors. -/
theorem dict_builds_pair_tuples_witness :
    evalStep ⟨[Value.Int 2, Value.Int 1, Value.Raw PickleOp.MARK], []⟩
        PickleOp.DICT =
      Except.ok
        ⟨[Value.Seq SequenceType.Dict
            [Value.Seq SequenceType.Tuple [Value.Int 1, Value.Int 2]]],
          []⟩ ∧
    evalStep ⟨[Value.None, Value.Raw PickleOp.MARK], []⟩ PickleOp.DICT =
      Except.error (EvalErr.err "Bad value for setitems") := by
  have h := dict_builds_pair_tuples [(Value.Int 1, Value.Int 2)] [Value.None] [] []
  exact ⟨h.1 (by decide), h.2 (by decide) (by decide)⟩

/-- C9 (counterexample): `EMPTY_DICT, MARK, k, v, SETITEMS` leaves the
dict's argument list holding ONE element — a tuple wrapping the single
pair-tuple — not the pair-tuple itself, refuting "each pair becoming an
element of that argument list". -/
theorem setitems_counterexample :
    evalLoop ⟨[], []⟩
        [PickleOp.EMPTY_DICT, PickleOp.MARK, PickleOp.BININT1 1,
          PickleOp.BININT1 2, PickleOp.SETITEMS] =
      Except.ok
        ⟨[Value.Seq SequenceType.Dict
            [Value.Seq SequenceType.Tuple
                [Value.Seq SequenceType.Tuple
                    [Value.Raw (PickleOp.BININT1 1),
                      Value.Raw (PickleOp.BININT1 2)]]]],
          []⟩ ∧
    [Value.Seq SequenceType.Tuple
        [Value.Seq SequenceType.Tuple
            [Value.Raw (PickleOp.BININT1 1), Value.Raw (PickleOp.BININT1 2)]]] ≠
      [Value.Seq SequenceType.Tuple
          [Value.Raw (PickleOp.BININT1 1), Value.Raw (PickleOp.BININT1 2)]] :=
  ⟨rfl, by simp⟩

/-- C9 (amended): `SETITEMS` pops the mark-delimited items, pairs them
into key/value 2-tuples, and appends a SINGLE new element to the
resolved stack-top target's argument list — one tuple whose elements
are those pair-tuples — when the target resolves to a `Seq` or
`Global`; any other resolved stack-top kind (e.g. an integer) is the
hard "Bad stack top for SETITEMS" error. Covered stack tops: a literal
`Seq`/`Global`/`Int` (mutated in its stack slot), and a `Ref` whose
chain `resolve_mut` follows to memo slot `tgt` (the append then lands
in that memo slot — holding a `Seq`, a `Global`, or an erroring
`Int` — while the `Ref` itself stays on the stack). -/
theorem setitems_appends_single_pairs_tuple (kvs : List (Value × Value))
    (below : PickleStack) (m : Memo) (st0 : SequenceType) (args0 : List Value)
    (g : Value) (n : Int) (mid tgt : Nat)
    (h : ∀ v ∈ kvFlat kvs, isMarkVal v = false) :
    evalStep
        ⟨(kvFlat kvs).reverse ++
            Value.Raw PickleOp.MARK :: Value.Seq st0 args0 :: below,
          m⟩ PickleOp.SETITEMS =
      Except.ok
        ⟨Value.Seq st0
            (args0 ++
              [Value.Seq SequenceType.Tuple
                  (kvs.map (fun kv => Value.Seq SequenceType.Tuple [kv.1, kv.2]))]) ::
            below,
          m⟩ ∧
    evalStep
        ⟨(kvFlat kvs).reverse ++
            Value.Raw PickleOp.MARK :: Value.Global g args0 :: below,
          m⟩ PickleOp.SETITEMS =
      Except.ok
        ⟨Value.Global g
            (args0 ++
              [Value.Seq SequenceType.Tuple
                  (kvs.map (fun kv => Value.Seq SequenceType.Tuple [kv.1, kv.2]))]) ::
            below,
          m⟩ ∧
    evalStep
        ⟨(kvFlat kvs).reverse ++
            Value.Raw PickleOp.MARK :: Value.Int n :: below,
          m⟩ PickleOp.SETITEMS =
      Except.error (EvalErr.err "Bad stack top for SETITEMS") ∧
    (resolveMutGo m true (MAX_DEPTH - 1) mid = Except.ok tgt →
      memoFind m tgt = some (Value.Seq st0 args0) →
      evalStep
          ⟨(kvFlat kvs).reverse ++
              Value.Raw PickleOp.MARK :: Value.Ref mid :: below,
            m⟩ PickleOp.SETITEMS =
        Except.ok
          ⟨Value.Ref mid :: below,
            memoInsert m tgt
              (Value.Seq st0
                (args0 ++
                  [Value.Seq SequenceType.Tuple
                      (kvs.map
                        (fun kv => Value.Seq SequenceType.Tuple [kv.1, kv.2]))]))⟩) ∧
    (resolveMutGo m true (MAX_DEPTH - 1) mid = Except.ok tgt →
      memoFind m tgt = some (Value.Global g args0) →
      evalStep
          ⟨(kvFlat kvs).reverse ++
              Value.Raw PickleOp.MARK :: Value.Ref mid :: below,
            m⟩ PickleOp.SETITEMS =
        Except.ok
          ⟨Value.Ref mid :: below,
            memoInsert m tgt
              (Value.Global g
                (args0 ++
                  [Value.Seq SequenceType.Tuple
                      (kvs.map
                        (fun kv => Value.Seq SequenceType.Tuple [kv.1, kv.2]))]))⟩) ∧
    (resolveMutGo m true (MAX_DEPTH - 1) mid = Except.ok tgt →
      memoFind m tgt = some (Value.Int n) →
      evalStep
          ⟨(kvFlat kvs).reverse ++
              Value.Raw PickleOp.MARK :: Value.Ref mid :: below,
            m⟩ PickleOp.SETITEMS =
        Except.error (EvalErr.err "Bad stack top for SETITEMS")) := by
  have hrev : ∀ v ∈ (kvFlat kvs).reverse, isMarkVal v = false := by
    intro v hv
    exact h v (List.mem_reverse.mp hv)
  refine ⟨?_, ?_, ?_, ?_, ?_, ?_⟩
  · have hpm := pop_mark_append ((kvFlat kvs).reverse)
      (Value.Seq st0 args0 :: below) hrev
    simp [evalStep, hpm, List.reverse_reverse, make_kvlist_kvFlat, mutateTop,
      updateCollection, Bind.bind, Except.bind]
  · have hpm := pop_mark_append ((kvFlat kvs).reverse)
      (Value.Global g args0 :: below) hrev
    simp [evalStep, hpm, List.reverse_reverse, make_kvlist_kvFlat, mutateTop,
      updateCollection, Bind.bind, Except.bind]
  · have hpm := pop_mark_append ((kvFlat kvs).reverse)
      (Value.Int n :: below) hrev
    simp [evalStep, hpm, List.reverse_reverse, make_kvlist_kvFlat, mutateTop,
      updateCollection, Bind.bind, Except.bind]
  · intro hchain htgt
    have hpm := pop_mark_append ((kvFlat kvs).reverse)
      (Value.Ref mid :: below) hrev
    simp [evalStep, hpm, List.reverse_reverse, make_kvlist_kvFlat, mutateTop,
      hchain, htgt, updateCollection, Bind.bind, Except.bind]
  · intro hchain htgt
    have hpm := pop_mark_append ((kvFlat kvs).reverse)
      (Value.Ref mid :: below) hrev
    simp [evalStep, hpm, List.reverse_reverse, make_kvlist_kvFlat, mutateTop,
      hchain, htgt, updateCollection, Bind.bind, Except.bind]
  · intro hchain htgt
    have hpm := pop_mark_append ((kvFlat kvs).reverse)
      (Value.Ref mid :: below) hrev
    simp [evalStep, hpm, List.reverse_reverse, make_kvlist_kvFlat, mutateTop,
      hchain, htgt, updateCollection, Bind.bind, Except.bind]

/-- C9 (witness): one pair onto an empty dict appends the wrapper
tuple; onto an integer it is the bad-stack-top error; and onto the
two-hop chain `Ref 0 → Ref 1 → Seq(Dict)` the wrapper tuple lands in
memo slot 1 while `Ref 0` stays on the stack. -/
theorem setitems_appends_single_pairs_tuple_witness :
    evalStep
        ⟨[Value.Int 2, Value.Int 1, Value.Raw PickleOp.MARK,
            Value.Seq SequenceType.Dict []],
          []⟩ PickleOp.SETITEMS =
      Except.ok
        ⟨[Value.Seq SequenceType.Dict
            [Value.Seq SequenceType.Tuple
                [Value.Seq SequenceType.Tuple [Value.Int 1, Value.Int 2]]]],
          []⟩ ∧
    evalStep
        ⟨[Value.Int 2, Value.Int 1, Value.Raw PickleOp.MARK, Value.Int 7], []⟩
        PickleOp.SETITEMS =
      Except.error (EvalErr.err "Bad stack top for SETITEMS") ∧
    evalStep
        ⟨[Value.Int 2, Value.Int 1, Value.Raw PickleOp.MARK, Value.Ref 0],
          [(0, Value.Ref 1), (1, Value.Seq SequenceType.Dict [])]⟩
        PickleOp.SETITEMS =
      Except.ok
        ⟨[Value.Ref 0],
          [(0, Value.Ref 1),
            (1,
              Value.Seq SequenceType.Dict
                [Value.Seq SequenceType.Tuple
                    [Value.Seq SequenceType.Tuple [Value.Int 1, Value.Int 2]]])]⟩ ∧
    evalStep
        ⟨[Value.Int 2, Value.Int 1, Value.Raw PickleOp.MARK, Value.Ref 0],
          [(0, Value.Ref 1), (1, Value.Int 7)]⟩ PickleOp.SETITEMS =
      Except.error (EvalErr.err "Bad stack top for SETITEMS") := by
  have h := setitems_appends_single_pairs_tuple [(Value.Int 1, Value.Int 2)] []
    [] SequenceType.Dict [] Value.None 7 0 1 (by decide)
  have hseq := setitems_appends_single_pairs_tuple [(Value.Int 1, Value.Int 2)] []
    [(0, Value.Ref 1), (1, Value.Seq SequenceType.Dict [])] SequenceType.Dict []
    Value.None 7 0 1 (by decide)
  have hint := setitems_appends_single_pairs_tuple [(Value.Int 1, Value.Int 2)] []
    [(0, Value.Ref 1), (1, Value.Int 7)] SequenceType.Dict [] Value.None 7 0 1
    (by decide)
  exact ⟨h.1, h.2.2.1, hseq.2.2.2.1 rfl rfl, hint.2.2.2.2.2 rfl rfl⟩

/-- C8: every instruction whose handler pops or peeks the operand
stack returns an explicit `err` (never a `panicked`, never a default)
when run on the empty stack, and every pop-through-mark instruction
does so on any stack holding no marker: POP, DUP, BINPERSID, REDUCE,
BUILD, BINPUT, LONG_BINPUT, PUT, TUPLE1/2/3, SETITEM, APPEND, NEWOBJ,
NEWOBJ_EX, STACK_GLOBAL and MEMOIZE underflow on `[]`; POP_MARK,
TUPLE, DICT, LIST, SETITEMS, APPENDS, ADDITEMS, FROZENSET, INST and
OBJ report the missing mark. -/
theorem stack_underflow_explicit_error (m : Memo) (s : PickleStack) (mid : Nat)
    (mn cn midstr : String) (hs : ∀ v ∈ s, isMarkVal v = false)
    (hmid : parseU32 midstr = some mid) :
    evalStep ⟨[], m⟩ PickleOp.POP = Except.error (EvalErr.err "Stack underrun") ∧
    evalStep ⟨[], m⟩ PickleOp.DUP =
      Except.error (EvalErr.err "Cannot DUP with empty stack") ∧
    evalStep ⟨[], m⟩ PickleOp.BINPERSID =
      Except.error (EvalErr.err "Stack underrun") ∧
    evalStep ⟨[], m⟩ PickleOp.REDUCE =
      Except.error (EvalErr.err "Stack underrun") ∧
    evalStep ⟨[], m⟩ PickleOp.BUILD =
      Except.error (EvalErr.err "Stack underrun") ∧
    evalStep ⟨[], m⟩ (PickleOp.BINPUT mid) =
      Except.error (EvalErr.err "Stack underrun") ∧
    evalStep ⟨[], m⟩ (PickleOp.LONG_BINPUT mid) =
      Except.error (EvalErr.err "Stack underrun") ∧
    evalStep ⟨[], m⟩ (PickleOp.PUT midstr) =
      Except.error (EvalErr.err "Stack underrun") ∧
    evalStep ⟨[], m⟩ PickleOp.TUPLE1 =
      Except.error (EvalErr.err "Stack underrun") ∧
    evalStep ⟨[], m⟩ PickleOp.TUPLE2 =
      Except.error (EvalErr.err "Stack underrun") ∧
    evalStep ⟨[], m⟩ PickleOp.TUPLE3 =
      Except.error (EvalErr.err "Stack underrun") ∧
    evalStep ⟨[], m⟩ PickleOp.SETITEM =
      Except.error (EvalErr.err "Stack underrun") ∧
    evalStep ⟨[], m⟩ PickleOp.APPEND =
      Except.error (EvalErr.err "Stack underrun") ∧
    evalStep ⟨[], m⟩ PickleOp.NEWOBJ =
      Except.error (EvalErr.err "Stack underrun") ∧
    evalStep ⟨[], m⟩ PickleOp.NEWOBJ_EX =
      Except.error (EvalErr.err "Stack underrun") ∧
    evalStep ⟨[], m⟩ PickleOp.STACK_GLOBAL =
      Except.error (EvalErr.err "Stack underrun") ∧
    evalStep ⟨[], m⟩ PickleOp.MEMOIZE =
      Except.error (EvalErr.err "Stack underrun") ∧
    evalStep ⟨s, m⟩ PickleOp.POP_MARK =
      Except.error (EvalErr.err "Missing MARK") ∧
    evalStep ⟨s, m⟩ PickleOp.TUPLE =
      Except.error (EvalErr.err "Missing MARK") ∧
    evalStep ⟨s, m⟩ PickleOp.DICT =
      Except.error (EvalErr.err "Missing MARK") ∧
    evalStep ⟨s, m⟩ PickleOp.LIST =
      Except.error (EvalErr.err "Missing MARK") ∧
    evalStep ⟨s, m⟩ PickleOp.SETITEMS =
      Except.error (EvalErr.err "Missing MARK") ∧
    evalStep ⟨s, m⟩ PickleOp.APPENDS =
      Except.error (EvalErr.err "Missing MARK") ∧
    evalStep ⟨s, m⟩ PickleOp.ADDITEMS =
      Except.error (EvalErr.err "Missing MARK") ∧
    evalStep ⟨s, m⟩ PickleOp.FROZENSET =
      Except.error (EvalErr.err "Missing MARK") ∧
    evalStep ⟨s, m⟩ (PickleOp.INST mn cn) =
      Except.error (EvalErr.err "Missing MARK") ∧
    evalStep ⟨s, m⟩ PickleOp.OBJ =
      Except.error (EvalErr.err "Missing MARK") := by
  have hnone := splitAtMark_none s hs
  have hpm : pop_mark s = Except.error (EvalErr.err "Missing MARK") := by
    simp [pop_mark, hnone]
  refine ⟨rfl, rfl, rfl, rfl, rfl, rfl, rfl, ?_, rfl, rfl, rfl, rfl, rfl, rfl,
    rfl, rfl, rfl, ?_, ?_, ?_, ?_, ?_, ?_, ?_, ?_, ?_, ?_⟩
  · simp [evalStep, hmid, stackPop, Bind.bind, Except.bind]
  · simp [evalStep, hpm, Bind.bind, Except.bind]
  · simp [evalStep, hpm, Bind.bind, Except.bind]
  · simp [evalStep, hpm, Bind.bind, Except.bind]
  · simp [evalStep, hpm, Bind.bind, Except.bind]
  · simp [evalStep, hpm, Bind.bind, Except.bind]
  · simp [evalStep, hpm, Bind.bind, Except.bind]
  · simp [evalStep, hpm, Bind.bind, Except.bind]
  · simp [evalStep, hpm, Bind.bind, Except.bind]
  · simp [evalStep, hpm, Bind.bind, Except.bind]
  · simp [evalStep, hnone]

/-- C8 (witness): concrete underflow and missing-mark errors. -/
theorem stack_underflow_explicit_error_witness :
    evalStep ⟨[], []⟩ PickleOp.POP = Except.error (EvalErr.err "Stack underrun") ∧
    evalStep ⟨[], []⟩ (PickleOp.PUT "0") =
      Except.error (EvalErr.err "Stack underrun") ∧
    evalStep ⟨[Value.None], []⟩ PickleOp.TUPLE =
      Except.error (EvalErr.err "Missing MARK") ∧
    evalStep ⟨[Value.None], []⟩ PickleOp.OBJ =
      Except.error (EvalErr.err "Missing MARK") := by
  have h := stack_underflow_explicit_error [] [Value.None] 0 "m" "c" "0"
    (by decide) (by rfl)
  obtain ⟨h1, h2, h3, h4, h5, h6, h7, h8, h9, h10, h11, h12, h13, h14, h15, h16,
    h17, h18, h19, h20, h21, h22, h23, h24, h25, h26, h27⟩ := h
  exact ⟨h1, h8, h19, h27⟩

/-- C10: a `STOP`-free instruction sequence is not an error on that
account: the loop is exactly the in-order monadic fold of the step
function over every instruction; appending a `STOP` changes nothing;
and whenever each instruction succeeds, `evaluate` returns the final
stack contents and memo table normally. -/
theorem stop_optional_processes_all (ops : List PickleOp)
    (h : ∀ op ∈ ops, isSTOP op = false) :
    (∀ st, evalLoop st ops = ops.foldlM evalStep st) ∧
    (∀ r, evaluate (ops ++ [PickleOp.STOP]) r = evaluate ops r) ∧
    (∀ st', ops.foldlM evalStep ⟨[], []⟩ = Except.ok st' →
      evaluate ops false = Except.ok (st'.stack.reverse, st'.memo)) := by
  refine ⟨evalLoop_eq_foldlM ops h, ?_, ?_⟩
  · intro r
    simp [evaluate, evalLoop_append_stop ops h]
  · intro st' hst
    have hl := evalLoop_eq_foldlM ops h ⟨[], []⟩
    simp [evaluate, hl, hst, Bind.bind, Except.bind]

/-- C10 (witness): a stop-free program returns its final stack and
memo, and appending `STOP` changes nothing. -/
theorem stop_optional_processes_all_witness :
    evaluate [PickleOp.EMPTY_DICT, PickleOp.STOP] true =
      evaluate [PickleOp.EMPTY_DICT] true ∧
    evaluate [PickleOp.EMPTY_DICT] false =
      Except.ok ([Value.Seq SequenceType.Dict []], []) := by
  have h := stop_optional_processes_all [PickleOp.EMPTY_DICT] (by decide)
  exact ⟨h.2.1 true, h.2.2 ⟨[Value.Seq SequenceType.Dict []], []⟩ rfl⟩

end RepugnantPickle
